import Mathlib

/-!
Shallow embedding of the GraphBinary v1 codec implemented in
gremlin_python/structure/io/graphbinaryV1.py (gremlin-python, apache
tinkerpop). Python byte strings are modelled as lists of naturals
below 256, Python text strings as lists of Unicode code points, and
exceptions as the error side of Except. Error strings are labels for
the exception raised at that point in the source.
-/

namespace GraphBinary

/-- A Python text string, modelled as its list of Unicode code points.
Python len on a string counts code points. -/
abbrev PyStr := List Nat

/-- Code points of a Lean string literal, for readable concrete values. -/
def strE (s : String) : PyStr := s.data.map Char.toNat

/-- Big-endian base-256 digits: the w-byte big-endian encoding of
n % 256^w, which is what struct.pack emits for the two's-complement
residue of a signed value. -/
def beBytes : Nat → Nat → List Nat
  | 0, _ => []
  | w + 1, n => beBytes w (n / 256) ++ [n % 256]

/-- A big-endian byte run read back as a natural number, the first step
of struct.unpack before sign adjustment. -/
def natOfBE (bs : List Nat) : Nat := bs.foldl (fun a d => a * 256 + d) 0

/-- Signed big-endian interpretation of a w-byte run: two's complement,
as struct.unpack of the formats b, i and q computes it. -/
def signedOfBE (w : Nat) (bs : List Nat) : Int :=
  let n := natOfBE bs
  if n < 2 ^ (8 * w - 1) then (n : Int) else (n : Int) - 2 ^ (8 * w)

/-- struct.pack of a signed big-endian integer of width w bytes; raises
struct.error when the value does not fit the width. -/
def packSigned (w : Nat) (v : Int) : Except String (List Nat) :=
  if v < -(2 ^ (8 * w - 1)) ∨ 2 ^ (8 * w - 1) - 1 < v then .error "struct.error"
  else .ok (beBytes w (v % (2 ^ (8 * w))).toNat)

/-- struct.pack of format b (signed 8-bit). -/
def packI8 (v : Int) : Except String (List Nat) := packSigned 1 v

/-- struct.pack of format i (signed big-endian 32-bit). -/
def packI32 (v : Int) : Except String (List Nat) := packSigned 4 v

/-- struct.pack of format q (signed big-endian 64-bit). -/
def packI64 (v : Int) : Except String (List Nat) := packSigned 8 v

/-- UTF-8 encoding of one code point, as the Python utf-8 codec emits
it for each character of a str. -/
def utf8Char (c : Nat) : List Nat :=
  if c < 0x80 then [c]
  else if c < 0x800 then [0xC0 + c / 64, 0x80 + c % 64]
  else if c < 0x10000 then [0xE0 + c / 4096, 0x80 + c / 64 % 64, 0x80 + c % 64]
  else [0xF0 + c / 262144, 0x80 + c / 4096 % 64, 0x80 + c / 64 % 64, 0x80 + c % 64]

/-- Python str.encode applied with the utf-8 codec. -/
def utf8Encode (s : PyStr) : List Nat := (s.map utf8Char).flatten

/-- Python bytes.decode with the utf-8 codec: yields the code points, or
raises UnicodeDecodeError on malformed input such as a truncated
multi-byte sequence. -/
def utf8Decode : List Nat → Except String PyStr
  | [] => .ok []
  | b :: rest =>
    if b < 0x80 then (utf8Decode rest).map (b :: ·)
    else if b < 0xC0 then .error "UnicodeDecodeError"
    else if b < 0xE0 then
      match rest with
      | b1 :: rest2 =>
        if 0x80 ≤ b1 ∧ b1 < 0xC0 then
          (utf8Decode rest2).map (((b - 0xC0) * 64 + (b1 - 0x80)) :: ·)
        else .error "UnicodeDecodeError"
      | [] => .error "UnicodeDecodeError"
    else if b < 0xF0 then
      match rest with
      | b1 :: b2 :: rest3 =>
        if (0x80 ≤ b1 ∧ b1 < 0xC0) ∧ (0x80 ≤ b2 ∧ b2 < 0xC0) then
          (utf8Decode rest3).map
            (((b - 0xE0) * 4096 + (b1 - 0x80) * 64 + (b2 - 0x80)) :: ·)
        else .error "UnicodeDecodeError"
      | _ => .error "UnicodeDecodeError"
    else if b < 0xF8 then
      match rest with
      | b1 :: b2 :: b3 :: rest4 =>
        if (0x80 ≤ b1 ∧ b1 < 0xC0) ∧ (0x80 ≤ b2 ∧ b2 < 0xC0) ∧ (0x80 ≤ b3 ∧ b3 < 0xC0) then
          (utf8Decode rest4).map
            (((b - 0xF0) * 262144 + (b1 - 0x80) * 4096 + (b2 - 0x80) * 64 + (b3 - 0x80)) :: ·)
        else .error "UnicodeDecodeError"
      | _ => .error "UnicodeDecodeError"
    else .error "UnicodeDecodeError"

/-- symbolMap of the class GraphBinaryTypeIO base: the mangled
reserved-word enum member names and the wire name each is written as. -/
def symbolMapPairs : List (PyStr × PyStr) :=
  [(strE "global_", strE "global"), (strE "as_", strE "as"),
   (strE "in_", strE "in"), (strE "and_", strE "and"),
   (strE "or_", strE "or"), (strE "is_", strE "is"),
   (strE "not_", strE "not"), (strE "from_", strE "from"),
   (strE "set_", strE "set"), (strE "list_", strE "list"),
   (strE "all_", strE "all"), (strE "with_", strE "with"),
   (strE "filter_", strE "filter"), (strE "id_", strE "id"),
   (strE "max_", strE "max"), (strE "min_", strE "min"),
   (strE "sum_", strE "sum")]

/-- Lookup in symbolMap. -/
def symbolMap (s : PyStr) : Option PyStr :=
  (symbolMapPairs.find? (fun p => p.1 == s)).map Prod.snd

/-- unmangleKeyword: symbolMap.get with the symbol itself as default. -/
def unmangleKeyword (s : PyStr) : PyStr := (symbolMap s).getD s

/-- as_bytes of the class GraphBinaryTypeIO base: an optional type code
byte, then the hard-coded value flag 0, then an optional i32 size, then
the given byte runs. -/
def as_bytes (code : Option Nat) (size : Option Int) (args : List (List Nat)) :
    Except String (List Nat) := do
  let init : List Nat := match code with | some c => [c] | none => []
  let flag ← packI8 0
  let sz ← match size with | some n => packI32 n | none => pure ([] : List Nat)
  pure (init ++ flag ++ sz ++ args.flatten)

/-- string_as_bytes: an i32 holding the Python len of the str, which is
its CHARACTER count, followed by the utf-8 bytes of the str. -/
def string_as_bytes (s : PyStr) : Except String (List Nat) := do
  let n ← packI32 (s.length : Int)
  pure (n ++ utf8Encode s)

/-- In-memory Python values handled by the codec, one constructor per
registered serializer shape. vInt is the IntType shape (IntIO), vLong
the LongType shape (LongIO). vUuid carries the 16 bytes exposed by the
uuid attribute named bytes. A Python set is carried with its iteration
order, a dict as its items in iteration order. vEnum carries the wire
type code of the enum kind (Barrier, Cardinality, ..., T) together with
the member name, since every enum handler shares the body of the class
EnumIO base. vUnregistered stands for any object whose type has no
registered handler and that is not a dict, set or list instance.
Floats, doubles, dates, timestamps and lambdas are outside the claims
and outside this value universe. -/
inductive PyValue where
  | vNone
  | vInt (n : Int)
  | vLong (n : Int)
  | vBool (b : Bool)
  | vStr (s : PyStr)
  | vUuid (bytes16 : List Nat)
  | vByte (n : Int)
  | vByteBuffer (bs : List Nat)
  | vList (xs : List PyValue)
  | vSet (xs : List PyValue)
  | vMap (kvs : List (PyValue × PyValue))
  | vVertex (vid : PyValue) (label : PyStr)
  | vEdge (eid : PyValue) (label : PyStr) (inVid : PyValue) (inVlabel : PyStr)
      (outVid : PyValue) (outVlabel : PyStr)
  | vPath (labels objects : PyValue)
  | vProperty (key : PyStr) (value : PyValue)
  | vVertexProperty (vpid : PyValue) (label : PyStr) (value : PyValue)
  | vBinding (key : PyStr) (value : PyValue)
  | vBytecode (steps sources : List (PyStr × List PyValue))
  | vTraverser (bulk : Int) (obj : PyValue)
  | vEnum (code : Nat) (name : PyStr)
  | vP (op : PyStr) (value : PyValue) (other : Option PyValue)
  | vTextP (op : PyStr) (value : PyValue) (other : Option PyValue)
  | vUnregistered (tag : Nat)

/-- Result of GraphBinaryWriter.toDict: either a byte run produced by a
handler, or, for a value with no handler, the object itself returned
unchanged by the final fallthrough of toDict. -/
inductive TdResult where
  | bytes (bs : List Nat)
  | raw (v : PyValue)

/-- Models bytearray.extend applied to the result of a nested
writer.writeObject call: extending with a byte run appends it, while
extending with a non-bytes object such as None raises TypeError. -/
def expectBytes : Except String TdResult → Except String (List Nat)
  | .ok (.bytes bs) => .ok bs
  | .ok (.raw _) => .error "TypeError"
  | .error e => .error e

/-- GraphBinaryWriter.toDict, the body of writeObject. Dispatch: each
constructor of PyValue is the shape of exactly one registered
serializer class, found by the exact type lookup; vNone and
vUnregistered match no registry entry and none of the dict, set and
list isinstance fallbacks, so toDict returns the object unchanged.
The long-range exception of LongIO.dictify, raised in the source with
the message about bigint being a todo, carries the label OUT_OF_RANGE
here. -/
def toDict : PyValue → Except String TdResult
  | .vNone => .ok (.raw .vNone)
  | .vUnregistered t => .ok (.raw (.vUnregistered t))
  | .vInt n =>
    -- IntIO: dictify inherited from LongIO, byte format i
    if n < -9223372036854775808 ∨ 9223372036854775807 < n then .error "OUT_OF_RANGE"
    else do
      let payload ← packI32 n
      let bs ← as_bytes (some 0x01) none [payload]
      pure (.bytes bs)
  | .vLong n =>
    -- LongIO.dictify, byte format q
    if n < -9223372036854775808 ∨ 9223372036854775807 < n then .error "OUT_OF_RANGE"
    else do
      let payload ← packI64 n
      let bs ← as_bytes (some 0x02) none [payload]
      pure (.bytes bs)
  | .vBool b => do
    -- BooleanIO.dictify
    let payload ← packI8 (if b then 1 else 0)
    let bs ← as_bytes (some 0x27) none [payload]
    pure (.bytes bs)
  | .vStr s => do
    -- StringIO.dictify: size argument is len of the str, its CHARACTER count
    let bs ← as_bytes (some 0x03) (some (s.length : Int)) [utf8Encode s]
    pure (.bytes bs)
  | .vUuid u => do
    -- UuidIO.dictify
    let bs ← as_bytes (some 0x0c) none [u]
    pure (.bytes bs)
  | .vByte n => do
    -- ByteIO.dictify
    let payload ← packI8 n
    let bs ← as_bytes (some 0x24) none [payload]
    pure (.bytes bs)
  | .vByteBuffer b => do
    -- ByteBufferIO.dictify
    let bs ← as_bytes (some 0x25) (some (b.length : Int)) [b]
    pure (.bytes bs)
  | .vList xs => do
    -- ListIO.dictify
    let parts ← xs.attach.mapM (fun ⟨x, hx⟩ => expectBytes (toDict x))
    let bs ← as_bytes (some 0x09) (some (xs.length : Int)) [parts.flatten]
    pure (.bytes bs)
  | .vSet xs => do
    -- SetIO: dictify inherited from ListIO, type code of set
    let parts ← xs.attach.mapM (fun ⟨x, hx⟩ => expectBytes (toDict x))
    let bs ← as_bytes (some 0x0b) (some (xs.length : Int)) [parts.flatten]
    pure (.bytes bs)
  | .vMap kvs => do
    -- MapIO.dictify
    let parts ← kvs.attach.mapM (fun ⟨kv, hkv⟩ => do
      let kb ← expectBytes (toDict kv.1)
      let vb ← expectBytes (toDict kv.2)
      pure (kb ++ vb))
    let bs ← as_bytes (some 0x0a) (some (kvs.length : Int)) [parts.flatten]
    pure (.bytes bs)
  | .vVertex vid lbl => do
    -- VertexIO.dictify
    let idb ← expectBytes (toDict vid)
    let lb ← string_as_bytes lbl
    let bs ← as_bytes (some 0x11) none [idb ++ lb ++ [0xFE]]
    pure (.bytes bs)
  | .vEdge eid lbl inVid inVlbl outVid outVlbl => do
    -- EdgeIO.dictify
    let idb ← expectBytes (toDict eid)
    let lb ← string_as_bytes lbl
    let inIdb ← expectBytes (toDict inVid)
    let inLb ← string_as_bytes inVlbl
    let outIdb ← expectBytes (toDict outVid)
    let outLb ← string_as_bytes outVlbl
    let bs ← as_bytes (some 0x0d) none
      [idb ++ lb ++ inIdb ++ inLb ++ outIdb ++ outLb ++ [0xFE, 0xFE]]
    pure (.bytes bs)
  | .vPath lbls objs => do
    -- PathIO.dictify
    let lb ← expectBytes (toDict lbls)
    let ob ← expectBytes (toDict objs)
    let bs ← as_bytes (some 0x0e) none [lb ++ ob]
    pure (.bytes bs)
  | .vProperty key value => do
    -- PropertyIO.dictify
    let kb ← string_as_bytes key
    let vb ← expectBytes (toDict value)
    let bs ← as_bytes (some 0x0f) none [kb ++ vb ++ [0xFE]]
    pure (.bytes bs)
  | .vVertexProperty vpid lbl value => do
    -- VertexPropertyIO.dictify
    let idb ← expectBytes (toDict vpid)
    let lb ← string_as_bytes lbl
    let vb ← expectBytes (toDict value)
    let bs ← as_bytes (some 0x12) none [idb ++ lb ++ vb ++ [0xFE, 0xFE]]
    pure (.bytes bs)
  | .vBinding key value => do
    -- BindingIO.dictify
    let kb ← string_as_bytes key
    let vb ← expectBytes (toDict value)
    let bs ← as_bytes (some 0x14) none [kb ++ vb]
    pure (.bytes bs)
  | .vBytecode steps sources => do
    -- BytecodeIO.dictify: an instruction is its name followed by its
    -- args; i32 instruction count, then per instruction the name as a
    -- raw string, the i32 count of its args, and each arg written
    -- through the writer; steps first, then sources
    let stepn ← packI32 (steps.length : Int)
    let stepParts ← steps.attach.mapM (fun ⟨inst, hinst⟩ => do
      let nm ← string_as_bytes inst.1
      let ac ← packI32 (inst.2.length : Int)
      let args ← inst.2.attach.mapM (fun ⟨a, ha⟩ => expectBytes (toDict a))
      pure (nm ++ ac ++ args.flatten))
    let sourcen ← packI32 (sources.length : Int)
    let sourceParts ← sources.attach.mapM (fun ⟨inst, hinst⟩ => do
      let nm ← string_as_bytes inst.1
      let ac ← packI32 (inst.2.length : Int)
      let args ← inst.2.attach.mapM (fun ⟨a, ha⟩ => expectBytes (toDict a))
      pure (nm ++ ac ++ args.flatten))
    let bs ← as_bytes (some 0x15) none
      [stepn ++ stepParts.flatten ++ sourcen ++ sourceParts.flatten]
    pure (.bytes bs)
  | .vTraverser bulk obj => do
    -- TraverserIO.dictify
    let bb ← packI64 bulk
    let ob ← expectBytes (toDict obj)
    let bs ← as_bytes (some 0x21) none [bb ++ ob]
    pure (.bytes bs)
  | .vEnum c name => do
    -- the shared EnumIO dictify body, c the wire code of the enum kind
    let nb ← string_as_bytes (unmangleKeyword name)
    let bs ← as_bytes (some c) none [nb]
    pure (.bytes bs)
  | .vP op value other => do
    -- PIO.dictify at the default as_value of False: code emitted, no flag
    let opb ← string_as_bytes op
    let additional ← match other with
      | some o => do
        let wv ← expectBytes (toDict value)
        let wo ← expectBytes (toDict o)
        pure [wv, wo]
      | none => do
        let wv ← expectBytes (toDict value)
        pure [wv]
    let nb ← packI32 (additional.length : Int)
    pure (.bytes ([0x1e] ++ opb ++ nb ++ additional.flatten))
  | .vTextP op value other => do
    -- TextPIO.dictify at the default as_value of False
    let opb ← string_as_bytes op
    let additional ← match other with
      | some o => do
        let wv ← expectBytes (toDict value)
        let wo ← expectBytes (toDict o)
        pure [wv, wo]
      | none => do
        let wv ← expectBytes (toDict value)
        pure [wv]
    let nb ← packI32 (additional.length : Int)
    pure (.bytes ([0x28] ++ opb ++ nb ++ additional.flatten))
termination_by v => sizeOf v
decreasing_by
  all_goals simp_wf
  all_goals try omega
  all_goals try (have h := List.sizeOf_lt_of_mem hx; omega)
  all_goals try (have h := List.sizeOf_lt_of_mem hkv; obtain ⟨k1, k2⟩ := kv; simp at h ⊢; omega)
  all_goals
    (have h1 := List.sizeOf_lt_of_mem ha
     have h2 := List.sizeOf_lt_of_mem hinst
     obtain ⟨n1, n2⟩ := inst
     simp at h1 h2 ⊢
     omega)

/-- GraphBinaryWriter.writeObject, which is toDict. -/
def writeObject (v : PyValue) : Except String TdResult := toDict v

/-- The payload part of PIO.dictify: the operator as a raw string, then
the i32 count of the fully written predicate arguments (value alone, or
value and other when other is not None), then those arguments. -/
def p_payload (op : PyStr) (value : PyValue) (other : Option PyValue) :
    Except String (List Nat) := do
  let opb ← string_as_bytes op
  let additional ← match other with
    | some o => do
      let wv ← expectBytes (writeObject value)
      let wo ← expectBytes (writeObject o)
      pure [wv, wo]
    | none => do
      let wv ← expectBytes (writeObject value)
      pure [wv]
  let nb ← packI32 (additional.length : Int)
  pure (opb ++ nb ++ additional.flatten)

/-- PIO.dictify with its as_value argument explicit: the leading byte
run is empty when as_value is True and is the type code 0x1e when it is
False; no value flag byte is written in either case. -/
def p_dictify (asValue : Bool) (op : PyStr) (value : PyValue) (other : Option PyValue) :
    Except String (List Nat) :=
  (p_payload op value other).map (fun bs => (if asValue then [] else [0x1e]) ++ bs)

/-- TextPIO.dictify, whose body in the source repeats PIO.dictify
verbatim apart from the type code 0x28. -/
def textp_dictify (asValue : Bool) (op : PyStr) (value : PyValue) (other : Option PyValue) :
    Except String (List Nat) :=
  (p_payload op value other).map (fun bs => (if asValue then [] else [0x28]) ++ bs)

/-- True exactly when the call raised an exception. -/
def raised {α : Type} : Except String α → Bool
  | .error _ => true
  | .ok _ => false

/-- Python buff.read of a BytesIO: yields up to n bytes together with
the remaining input; a short read at end of input is not an error. -/
def bread (n : Nat) (buf : List Nat) : List Nat × List Nat :=
  (buf.take n, buf.drop n)

/-- read_int of the class GraphBinaryTypeIO base: struct.unpack of
format i on buff.read of four bytes; struct.error when fewer than four
bytes remain. -/
def read_int (buf : List Nat) : Except String (Int × List Nat) :=
  let (bs, rest) := bread 4 buf
  if bs.length = 4 then .ok (signedOfBE 4 bs, rest) else .error "struct.error"

/-- read_string of the class GraphBinaryTypeIO base: buff.read of
read_int many bytes, decoded as UTF-8. Python read applied to a
negative count reads to the end of the input. -/
def read_string (buf : List Nat) : Except String (PyStr × List Nat) := do
  let (n, rest) ← read_int buf
  let cnt := if n < 0 then rest.length else n.toNat
  let (bs, rest2) := bread cnt rest
  let s ← utf8Decode bs
  pure (s, rest2)

/-- is_null of the class GraphBinaryTypeIO base: read one flag byte;
a flag of 0x01 yields None, and ANY other flag value, 0x00 and every
reserved value alike, falls through to the payload reader. An empty
input raises IndexError from the subscript on the empty read. -/
def is_null (buf : List Nat)
    (else_opt : List Nat → Except String (PyValue × List Nat)) :
    Except String (PyValue × List Nat) :=
  match buf with
  | [] => .error "IndexError"
  | f :: rest => if f = 0x01 then .ok (.vNone, rest) else else_opt rest

/-- A counted reading loop threading the remaining input, the shape of
the while loops in the collection and bytecode objectify bodies. -/
def loopRead {α : Type} (step : List Nat → Except String (α × List Nat)) :
    Nat → List Nat → Except String (List α × List Nat)
  | 0, buf => .ok ([], buf)
  | n + 1, buf => do
    let (v, b2) ← step buf
    let (vs, b3) ← loopRead step n b2
    pure (v :: vs, b3)

/-- GraphBinaryReader.toObject with a recursion depth bound in the
first argument; the Python original recurses on the stream without a
bound, so any bound above the nesting depth of the encoded value gives
the behaviour of the source, and the theorems below use concrete or
universally quantified sufficient bounds. Yields the decoded value and
the remaining input. An empty input raises IndexError; a type code
byte that is no DataType member raises ValueError; a member with no
registered deserializer raises KeyError; the write-only handlers for
lambda, P and TextP raise NotImplementedError; the Graph handler
raises AttributeError. The date, timestamp, float and double handlers
exist in the source but produce values outside the embedded universe
(floating point and calendar values are not claims of this
development) and are mapped to an error label here. The enum handlers
look the received name up in enum classes defined outside the embedded
module; that lookup is modelled as yielding the member of the received
name. The Edge constructor also lives outside the embedded module;
modelled from the spec: the first vertex read fills the inV slot. -/
def toObject : Nat → List Nat → Except String (PyValue × List Nat)
  | 0, _ => .error "recursion depth exceeded"
  | fuel + 1, buf =>
    match buf with
    | [] => .error "IndexError"
    | bt :: rest =>
      if bt = 0xFE then .ok (.vNone, rest)
      else if bt = 0x01 then
        -- IntIO.objectify
        is_null rest (fun b => do
          let (n, b2) ← read_int b
          pure (.vInt n, b2))
      else if bt = 0x02 then
        -- LongIO.objectify: struct.unpack of format q on eight bytes
        is_null rest (fun b => do
          let (bs8, b2) := bread 8 b
          if bs8.length = 8 then pure (.vLong (signedOfBE 8 bs8), b2)
          else .error "struct.error")
      else if bt = 0x03 then
        -- StringIO.objectify
        is_null rest (fun b => do
          let (s, b2) ← read_string b
          pure (.vStr s, b2))
      else if bt = 0x09 then
        -- ListIO.objectify; a negative size runs the while loop zero times
        is_null rest (fun b => do
          let (n, b2) ← read_int b
          let (items, b3) ← loopRead (fun bb => toObject fuel bb) n.toNat b2
          pure (.vList items, b3))
      else if bt = 0x0a then
        -- MapIO.objectify
        is_null rest (fun b => do
          let (n, b2) ← read_int b
          let (kvs, b3) ← loopRead (fun bb => do
            let (k, bb2) ← toObject fuel bb
            let (v, bb3) ← toObject fuel bb2
            pure ((k, v), bb3)) n.toNat b2
          pure (.vMap kvs, b3))
      else if bt = 0x0b then do
        -- SetIO.objectify: the Python set constructor applied to the
        -- decoded list; applied to None it raises TypeError
        let (v, b2) ← is_null rest (fun b => do
          let (n, b3) ← read_int b
          let (items, b4) ← loopRead (fun bb => toObject fuel bb) n.toNat b3
          pure (.vList items, b4))
        match v with
        | .vList items => pure (.vSet items, b2)
        | _ => .error "TypeError"
      else if bt = 0x0c then
        -- UuidIO.objectify: the uuid constructor needs exactly 16 bytes
        is_null rest (fun b => do
          let (bs16, b2) := bread 16 b
          if bs16.length = 16 then pure (.vUuid bs16, b2)
          else .error "ValueError")
      else if bt = 0x0d then
        -- EdgeIO.objectify
        is_null rest (fun b => do
          let (eid, b2) ← toObject fuel b
          let (elbl, b3) ← read_string b2
          let (v1id, b4) ← toObject fuel b3
          let (v1lbl, b5) ← read_string b4
          let (v2id, b6) ← toObject fuel b5
          let (v2lbl, b7) ← read_string b6
          let (_, b8) := bread 2 b7
          pure (.vEdge eid elbl v1id v1lbl v2id v2lbl, b8))
      else if bt = 0x0e then
        -- PathIO.objectify
        is_null rest (fun b => do
          let (lbls, b2) ← toObject fuel b
          let (objs, b3) ← toObject fuel b2
          pure (.vPath lbls objs, b3))
      else if bt = 0x0f then
        -- PropertyIO.objectify
        is_null rest (fun b => do
          let (k, b2) ← read_string b
          let (v, b3) ← toObject fuel b2
          let (_, b4) := bread 1 b3
          pure (.vProperty k v, b4))
      else if bt = 0x10 then
        -- TinkerGraphIO.objectify raises before reading anything
        .error "AttributeError"
      else if bt = 0x11 then
        -- VertexIO.objectify
        is_null rest (fun b => do
          let (vid, b2) ← toObject fuel b
          let (lbl, b3) ← read_string b2
          let (_, b4) := bread 1 b3
          pure (.vVertex vid lbl, b4))
      else if bt = 0x12 then
        -- VertexPropertyIO.objectify
        is_null rest (fun b => do
          let (vpid, b2) ← toObject fuel b
          let (lbl, b3) ← read_string b2
          let (v, b4) ← toObject fuel b3
          let (_, b5) := bread 1 b4
          let (_, b6) := bread 1 b5
          pure (.vVertexProperty vpid lbl v, b6))
      else if bt = 0x13 ∨ bt = 0x16 ∨ bt = 0x17 ∨ bt = 0x18 ∨ bt = 0x19 ∨
              bt = 0x1a ∨ bt = 0x1b ∨ bt = 0x1c ∨ bt = 0x1f ∨ bt = 0x20 then
        -- the shared EnumIO objectify body for Barrier, Cardinality,
        -- Column, Direction, Operator, Order, Pick, Pop, Scope, T
        is_null rest (fun b => do
          let (s, b2) ← read_string b
          pure (.vEnum bt s, b2))
      else if bt = 0x14 then
        -- BindingIO.objectify
        is_null rest (fun b => do
          let (k, b2) ← read_string b
          let (v, b3) ← toObject fuel b2
          pure (.vBinding k v, b3))
      else if bt = 0x15 then
        -- BytecodeIO.objectify
        is_null rest (fun b => do
          let (sc, b2) ← read_int b
          let (steps, b3) ← loopRead (fun bb => do
            let (nm, bb2) ← read_string bb
            let (ac, bb3) ← read_int bb2
            let (args, bb4) ← loopRead (fun c => toObject fuel c) ac.toNat bb3
            pure ((nm, args), bb4)) sc.toNat b2
          let (oc, b4) ← read_int b3
          let (sources, b5) ← loopRead (fun bb => do
            let (nm, bb2) ← read_string bb
            let (ac, bb3) ← read_int bb2
            let (args, bb4) ← loopRead (fun c => toObject fuel c) ac.toNat bb3
            pure ((nm, args), bb4)) oc.toNat b4
          pure (.vBytecode steps sources, b5))
      else if bt = 0x1d ∨ bt = 0x1e ∨ bt = 0x28 then
        -- LambdaIO, PIO and TextPIO have no objectify of their own and
        -- inherit the base one, which raises NotImplementedError
        .error "NotImplementedError"
      else if bt = 0x21 then
        -- TraverserIO.objectify
        is_null rest (fun b => do
          let (bs8, b2) := bread 8 b
          if bs8.length = 8 then do
            let (o, b3) ← toObject fuel b2
            pure (.vTraverser (signedOfBE 8 bs8) o, b3)
          else .error "struct.error")
      else if bt = 0x24 then
        -- ByteIO.objectify
        is_null rest (fun b =>
          match b with
          | [] => .error "struct.error"
          | x :: b2 => .ok (.vByte (signedOfBE 1 [x]), b2))
      else if bt = 0x25 then
        -- ByteBufferIO.objectify
        is_null rest (fun b => do
          let (n, b2) ← read_int b
          let cnt := if n < 0 then b2.length else n.toNat
          let (bs, b3) := bread cnt b2
          pure (.vByteBuffer bs, b3))
      else if bt = 0x27 then
        -- BooleanIO.objectify
        is_null rest (fun b =>
          match b with
          | [] => .error "struct.error"
          | x :: b2 => .ok (.vBool (signedOfBE 1 [x] == 1), b2))
      else if bt = 0x2a then
        -- BulkSetIO.objectify: note that the bulk of each entry is read
        -- with read_int, FOUR bytes, and a nonpositive bulk expands to
        -- nothing; the result is a plain list
        is_null rest (fun b => do
          let (n, b2) ← read_int b
          let (chunks, b3) ← loopRead (fun bb => do
            let (itm, bb2) ← toObject fuel bb
            let (bulk, bb3) ← read_int bb2
            pure (List.replicate bulk.toNat itm, bb3)) n.toNat b2
          pure (.vList chunks.flatten, b3))
      else if bt = 0x04 ∨ bt = 0x05 ∨ bt = 0x07 ∨ bt = 0x08 then
        -- DateIO, TimestampIO, DoubleIO, FloatIO: deserializers exist in
        -- the source but their values are outside the embedded universe
        .error "unmodelled calendar or floating point value"
      else if bt = 0x00 ∨ bt = 0x06 ∨ bt = 0x22 ∨ bt = 0x23 ∨ bt = 0x26 ∨
              bt = 0x29 ∨ bt = 0x2b ∨ bt = 0x2c ∨ bt = 0x2d then
        -- DataType members with no registered deserializer
        .error "KeyError"
      else
        -- not a DataType member: the DataType call raises
        .error "ValueError"

/-- The shapes an argument of GraphBinaryReader.readObject can have:
a mutable bytearray, a buffered reader (a BytesIO for instance), or an
immutable bytes object, which is neither of the former two. -/
inductive ReadInput where
  | frombytearray (bs : List Nat)
  | frombuffer (bs : List Nat)
  | frombytes (bs : List Nat)

/-- GraphBinaryReader.readObject: a bytearray is wrapped in a BytesIO
and handed to toObject, a buffered reader is handed to toObject
directly, and ANY other argument, notably an immutable bytes object,
matches neither isinstance branch, so the function body falls through
and returns None without reading anything. -/
def readObject (fuel : Nat) : ReadInput → Except String PyValue
  | .frombytearray bs => (toObject fuel bs).map Prod.fst
  | .frombuffer bs => (toObject fuel bs).map Prod.fst
  | .frombytes _ => .ok .vNone



/-! Helper lemmas about the byte-layer primitives. -/

theorem beBytes_length (w : Nat) : ∀ n, (beBytes w n).length = w := by
  induction w with
  | zero => intro n; rfl
  | succ w ih => intro n; simp [beBytes, ih]

theorem natOfBE_append_one (xs : List Nat) (d : Nat) :
    natOfBE (xs ++ [d]) = natOfBE xs * 256 + d := by
  simp [natOfBE, List.foldl_append]

theorem natOfBE_beBytes (w : Nat) : ∀ n, natOfBE (beBytes w n) = n % 256 ^ w := by
  induction w with
  | zero => intro n; simp [beBytes, natOfBE, Nat.mod_one]
  | succ w ih =>
    intro n
    rw [beBytes, natOfBE_append_one, ih]
    have : (256 : Nat) ^ (w + 1) = 256 * 256 ^ w := by ring
    rw [this, Nat.mod_mul]
    generalize n / 256 % 256 ^ w = k
    omega

/-! Sanity checks: the embedded writer and reader do round-trip on some
fully supported flat values, as the wire grammar intends. -/

theorem roundtrip_int_five :
    writeObject (.vInt 5) = .ok (.bytes [1, 0, 0, 0, 0, 5]) ∧
    (∀ fuel, toObject (fuel + 1) [1, 0, 0, 0, 0, 5] = .ok (.vInt 5, [])) := by
  refine ⟨?_, fun fuel => rfl⟩
  simp only [writeObject, toDict]
  try rfl

theorem roundtrip_bool_true :
    writeObject (.vBool true) = .ok (.bytes [0x27, 0, 1]) ∧
    (∀ fuel, toObject (fuel + 1) [0x27, 0, 1] = .ok (.vBool true, [])) := by
  refine ⟨?_, fun fuel => rfl⟩
  simp only [writeObject, toDict]
  try rfl

theorem roundtrip_ascii_string :
    writeObject (.vStr (strE "abc")) = .ok (.bytes [3, 0, 0, 0, 0, 3, 97, 98, 99]) ∧
    (∀ fuel, toObject (fuel + 1) [3, 0, 0, 0, 0, 3, 97, 98, 99] = .ok (.vStr (strE "abc"), [])) := by
  refine ⟨?_, fun fuel => rfl⟩
  simp only [writeObject, toDict]
  try rfl

/-! The claims. -/

/-- C1: the claimed round-trip identity decode(encode(v)) = v for every
value of a fully supported type FAILS on the code for the supported
type string: encoding the one-character string with code point 233
writes the character count 1 as the length prefix over a two-byte
utf-8 payload, and decoding the writer's own output truncates the
payload and raises UnicodeDecodeError instead of returning the
string, at every recursion bound. -/
theorem c1_string_roundtrip_fails :
    writeObject (.vStr (strE "é")) = .ok (.bytes [3, 0, 0, 0, 0, 1, 195, 169]) ∧
    (∀ fuel, readObject (fuel + 1) (.frombytearray [3, 0, 0, 0, 0, 1, 195, 169]) =
      .error "UnicodeDecodeError") := by
  refine ⟨?_, fun fuel => rfl⟩
  simp only [writeObject, toDict]
  try rfl

/-- C2: the claim that the i32 length prefix equals the utf-8 BYTE
count fails on the code: both StringIO.dictify and string_as_bytes
pack the Python len of the str, its character count. On the
one-character string with code point 233 the prefix is 1 while the
utf-8 form has 2 bytes. -/
theorem c2_length_prefix_is_char_count :
    string_as_bytes (strE "é") = .ok [0, 0, 0, 1, 195, 169] ∧
    (utf8Encode (strE "é")).length = 2 ∧
    (strE "é").length = 1 ∧
    writeObject (.vStr (strE "é")) = .ok (.bytes [3, 0, 0, 0, 0, 1, 195, 169]) := by
  refine ⟨rfl, rfl, rfl, ?_⟩
  simp only [writeObject, toDict]
  try rfl

/-- C3 counterexample: writeObject applied to None does NOT produce the
single byte 0xFE; no serializer is registered for the None shape, so
toDict returns the object unchanged. -/
theorem c3_counterexample :
    writeObject PyValue.vNone ≠ Except.ok (TdResult.bytes [0xFE]) := by
  simp only [writeObject, toDict]
  simp

/-- C3 amended: writeObject applied to None returns None itself,
producing no bytes at all; on the decode side, reading the single
byte 0xFE does return null immediately without consuming a flag byte,
whatever follows in the input. -/
theorem c3_null_handling :
    writeObject PyValue.vNone = .ok (.raw .vNone) ∧
    (∀ fuel rest, toObject (fuel + 1) (0xFE :: rest) = .ok (.vNone, rest)) := by
  refine ⟨?_, fun fuel rest => rfl⟩
  simp only [writeObject, toDict]

/-- C4 counterexample: on a value with no registered handler and no
container fallback the encoder does NOT raise: it returns the value
unchanged. -/
theorem c4_counterexample :
    raised (writeObject (PyValue.vUnregistered 0)) = false ∧
    writeObject (PyValue.vUnregistered 0) = .ok (.raw (.vUnregistered 0)) := by
  constructor <;> (simp only [writeObject, toDict]; try rfl)

/-- C4 amended: for every value whose shape has no handler and that is
not a generic mapping, set or sequence, writeObject returns the value
unchanged instead of raising. -/
theorem c4_unregistered_returned_unchanged (t : Nat) :
    writeObject (.vUnregistered t) = .ok (.raw (.vUnregistered t)) ∧
    raised (writeObject (.vUnregistered t)) = false := by
  constructor <;> (simp only [writeObject, toDict]; try rfl)

/-- C5 counterexample: when serialization of a P predicate is requested
in value-only form, the output does NOT begin with the type code: on
the predicate with operator eq and value 1 it begins with byte 0, the
first length byte of the operator string, and the same bytes come out
of the TextP handler, whose codes 0x1e and 0x28 appear nowhere. -/
theorem c5_counterexample :
    p_dictify true (strE "eq") (.vInt 1) none =
      .ok [0, 0, 0, 2, 101, 113, 0, 0, 0, 1, 1, 0, 0, 0, 0, 1] ∧
    textp_dictify true (strE "eq") (.vInt 1) none =
      .ok [0, 0, 0, 2, 101, 113, 0, 0, 0, 1, 1, 0, 0, 0, 0, 1] ∧
    ([0, 0, 0, 2, 101, 113, 0, 0, 0, 1, 1, 0, 0, 0, 0, 1] : List Nat).head? = some 0 ∧
    (0 : Nat) ≠ 0x1e ∧ (0 : Nat) ≠ 0x28 := by
  refine ⟨?_, ?_, rfl, by decide, by decide⟩ <;>
    (simp only [p_dictify, textp_dictify, p_payload, writeObject, toDict]; rfl)

/-- C5 amended: the P and TextP handlers prepend their type code
exactly when fully-qualified form is requested; in value-only form
(as_value True) the code byte is omitted and the output is the bare
payload. They never write a value flag byte in either form. -/
theorem c5_p_textp_code_only_when_qualified (op : PyStr) (v : PyValue) (o : Option PyValue) :
    p_dictify false op v o = (p_dictify true op v o).map (fun bs => 0x1e :: bs) ∧
    textp_dictify false op v o = (textp_dictify true op v o).map (fun bs => 0x28 :: bs) ∧
    p_dictify true op v o = p_payload op v o := by
  cases h : p_payload op v o <;> simp [p_dictify, textp_dictify, h, Except.map]

/-- C6: encoding a LongType value raises the range error exactly when
the value lies outside the signed 64-bit range, and inside the range
the payload after the type code 0x02 and the flag 0x00 is the 8-byte
big-endian two's-complement representation of the value, which the
signed big-endian reading maps back to the value. -/
theorem c6_long_encode_range (v : Int) :
    (v < -(2 ^ 63) ∨ 2 ^ 63 - 1 < v → writeObject (.vLong v) = .error "OUT_OF_RANGE") ∧
    (-(2 ^ 63) ≤ v → v ≤ 2 ^ 63 - 1 →
      writeObject (.vLong v) = .ok (.bytes (0x02 :: 0x00 :: beBytes 8 (v % 2 ^ 64).toNat)) ∧
      (beBytes 8 (v % 2 ^ 64).toNat).length = 8 ∧
      signedOfBE 8 (beBytes 8 (v % 2 ^ 64).toNat) = v) := by
  have h63 : ((2 : Int) ^ 63) = 9223372036854775808 := by norm_num
  have h64 : ((2 : Int) ^ 64) = 18446744073709551616 := by norm_num
  constructor
  · intro h
    rw [h63] at h
    simp only [writeObject, toDict]
    rw [if_pos (by omega)]
  · intro h1 h2
    rw [h63] at h1 h2
    simp only [writeObject, toDict]
    rw [if_neg (by omega)]
    have hp : packI64 v = .ok (beBytes 8 (v % 2 ^ 64).toNat) := by
      have hc : ¬ (v < -(2 ^ (8 * 8 - 1)) ∨ 2 ^ (8 * 8 - 1) - 1 < v) := by
        have he : ((2 : Int) ^ (8 * 8 - 1)) = 9223372036854775808 := by norm_num
        omega
      simp only [packI64, packSigned]
      rw [if_neg hc]
    refine ⟨?_, beBytes_length 8 _, ?_⟩
    · rw [hp]
      simp [as_bytes, packI8, packSigned, Except.bind, beBytes]
      try rfl
    · simp only [signedOfBE, natOfBE_beBytes]
      have h256 : (256 : Nat) ^ 8 = 18446744073709551616 := by norm_num
      rw [h64, h256]
      norm_num
      omega

/-- C6 witness: the value 2 to the 63rd raises the range error, and the
value 5 encodes to the type code, the flag and its eight payload
bytes. -/
theorem c6_witness :
    writeObject (.vLong (2 ^ 63)) = .error "OUT_OF_RANGE" ∧
    writeObject (.vLong 5) = .ok (.bytes [2, 0, 0, 0, 0, 0, 0, 0, 0, 5]) := by
  constructor
  · exact (c6_long_encode_range (2 ^ 63)).1 (Or.inr (by norm_num))
  · have h := ((c6_long_encode_range 5).2 (by norm_num) (by norm_num)).1
    rw [h]; rfl

/-- C7 counterexample: a value flag byte of 0x02, neither 0x00 nor
0x01, does NOT raise: decoding the typed int whose flag byte is 0x02
proceeds to the payload and yields the int 5 without error. -/
theorem c7_counterexample :
    toObject 3 [0x01, 0x02, 0, 0, 0, 5] = .ok (.vInt 5, []) ∧
    raised (toObject 3 [0x01, 0x02, 0, 0, 0, 5]) = false := ⟨rfl, rfl⟩

/-- C7 amended: is_null returns null exactly on the flag byte 0x01;
EVERY other flag byte, 0x00 and the reserved values alike, falls
through to the payload reader, and no error is raised for an invalid
flag. -/
theorem c7_flag_semantics (buf : List Nat) (k : List Nat → Except String (PyValue × List Nat)) :
    is_null (0x01 :: buf) k = .ok (.vNone, buf) ∧
    (∀ f, f ≠ 0x01 → is_null (f :: buf) k = k buf) := by
  refine ⟨rfl, fun f hf => ?_⟩
  simp [is_null, hf]

/-- C7 witness: the flag byte 0x02 falls through to the payload
reader. -/
theorem c7_witness :
    is_null [0x02, 9] (fun b => Except.ok (PyValue.vInt 0, b)) =
      Except.ok (PyValue.vInt 0, [9]) :=
  (c7_flag_semantics [9] (fun b => Except.ok (PyValue.vInt 0, b))).2 0x02 (by decide)

/-- C8: the enum token of the Order kind named desc encodes to the
claimed ten bytes; the symbolMap used by the shared enum dictify body
consists of exactly the seventeen listed mangled names, each mapped to
itself with the trailing underscore, code point 95, removed; and any
name outside the seventeen is written unchanged. -/
theorem c8_enum_encode :
    writeObject (.vEnum 0x1a (strE "desc")) =
      .ok (.bytes [0x1a, 0, 0, 0, 0, 4, 100, 101, 115, 99]) ∧
    symbolMapPairs.all
      (fun p => (unmangleKeyword p.1 == p.2) && (p.1 == p.2 ++ [95])) = true ∧
    symbolMapPairs.map Prod.fst =
      [strE "global_", strE "as_", strE "in_", strE "and_", strE "or_", strE "is_",
       strE "not_", strE "from_", strE "set_", strE "list_", strE "all_", strE "with_",
       strE "filter_", strE "id_", strE "max_", strE "min_", strE "sum_"] ∧
    (∀ s : PyStr, s ∉ symbolMapPairs.map Prod.fst → unmangleKeyword s = s) := by
  refine ⟨?_, by decide, by decide, fun s hs => ?_⟩
  · simp only [writeObject, toDict]; rfl
  · cases h : symbolMapPairs.find? (fun p => p.1 == s) with
    | none => simp [unmangleKeyword, symbolMap, h]
    | some p =>
      exfalso
      have hm := List.mem_of_find?_eq_some h
      have hp := List.find?_some h
      have hp1 : p.1 = s := by simpa using hp
      exact hs (hp1 ▸ List.mem_map_of_mem Prod.fst hm)

/-- C8 witness: a member name outside the seventeen mangled names, here
desc, is written unchanged. -/
theorem c8_witness : unmangleKeyword (strE "desc") = strE "desc" :=
  c8_enum_encode.2.2.2 (strE "desc") (by decide)

/-- C9: decoding a bulkset whose bulk fields are signed 64-bit, as the
wire grammar prescribes, desynchronizes: on the stream holding count
1, the typed int 5 and the i64 bulk 2, the reader takes only the
first FOUR bytes of the bulk through read_int, obtains bulk 0,
expands the value zero times, and stops with the last four bytes of
the bulk unconsumed, returning the empty list instead of the int 5
twice. -/
theorem c9_bulkset_reads_i32_bulk :
    ∀ fuel, toObject (fuel + 2)
      [0x2a, 0, 0, 0, 0, 1, 0x01, 0, 0, 0, 0, 5, 0, 0, 0, 0, 0, 0, 0, 2] =
      .ok (.vList [], [0, 0, 0, 2]) :=
  fun fuel => rfl

/-- C10: readObject applied to an immutable bytes object matches
neither isinstance branch and returns null regardless of the byte
content and of the recursion bound, reading nothing. -/
theorem c10_bytes_input_returns_null :
    ∀ fuel bs, readObject fuel (.frombytes bs) = .ok .vNone :=
  fun _ _ => rfl

end GraphBinary
